import Mathlib

/-!
Shallow embedding of the gamification progression engine from
`src/hooks/useGamification.ts` (gamified-learning-journal).

Modelling conventions:
* Calendar dates are modelled as integer day numbers (`Int`), day 0 being
  Thursday 1970-01-01 (the Unix epoch), so JavaScript's `Date.getDay`
  (0 = Sunday … 6 = Saturday) becomes `(d + 4) % 7`.  Every date
  comparison in the source (`isSameDay`, `isYesterday`, `getWeekStart`,
  `isSameWeek`, `calculateStreak`) works at calendar-day granularity,
  so this abstraction is faithful.
* The wall clock (`new Date()` in the source) is passed explicitly as a
  `now : Int` parameter to the operations that consult it.
* Counters (xp, totals, quest progress, streaks) are natural numbers; the
  source only ever adds to them, takes `max`/`min`, or floors nonnegative
  divisions, so `Nat` arithmetic coincides with JavaScript number
  arithmetic on these values.
* Display-only string fields (title, description, icon) are omitted;
  no behaviour reads them.
* `Record<string, Quest>` is modelled as a `List Quest` keyed by the
  `id` field (object keys are unique; reachable states keep ids unique,
  which is proved below where it matters).
-/

namespace Gamification

/-- Day-of-week of an integer day number, matching JS `Date.getDay`
(0 = Sunday, …, 6 = Saturday); day 0 (1970-01-01) is a Thursday. -/
def jsGetDay (d : Int) : Int := (d + 4) % 7

/-- `isSameDay` from the source: two dates are the same calendar day.
On day numbers this is plain equality. -/
def isSameDay (date1 date2 : Int) : Bool := date1 == date2

/-- `isYesterday` from the source: `date1` is exactly one day before `date2`. -/
def isYesterday (date1 date2 : Int) : Bool := isSameDay date1 (date2 - 1)

/-- `getWeekStart` from the source: the Monday of the week containing `d`
(Sunday belongs to the preceding Monday's week). -/
def getWeekStart (d : Int) : Int :=
  let day := jsGetDay d
  d - day + (if day == 0 then -6 else 1)

/-- `isSameWeek` from the source. -/
def isSameWeek (date reference : Int) : Bool :=
  isSameDay (getWeekStart date) (getWeekStart reference)

/-- `calculateLevel` from the source: level from XP. -/
def calculateLevel (xp : Nat) : Nat :=
  if xp < 100 then 0 else xp / 100

/-- `getXPForLevel` from the source. -/
def getXPForLevel (level : Nat) : Nat := level * 100

/-- Result of `getXPProgress` (the floating-point `percentage` display
field is omitted). -/
structure XPProgress where
  current : Nat
  required : Nat
  deriving Repr, DecidableEq

/-- `getXPProgress` from the source. -/
def getXPProgress (xp : Nat) : XPProgress :=
  let level := calculateLevel xp
  let currentLevelXP := getXPForLevel level
  let nextLevelXP := getXPForLevel (level + 1)
  { current := xp - currentLevelXP
    required := nextLevelXP - currentLevelXP }

/-- Result of `calculateStreak`. -/
structure StreakResult where
  newStreak : Nat
  isNewDay : Bool
  deriving Repr, DecidableEq

/-- `calculateStreak` from the source. -/
def calculateStreak (lastEntryDate : Option Int) (currentStreak : Nat)
    (entryDate : Int) : StreakResult :=
  match lastEntryDate with
  | none => { newStreak := 1, isNewDay := true }
  | some lastDate =>
    if isSameDay lastDate entryDate then
      { newStreak := currentStreak, isNewDay := false }
    else if isYesterday lastDate entryDate then
      { newStreak := currentStreak + 1, isNewDay := true }
    else
      { newStreak := 1, isNewDay := true }

/-- `JournalEntry` input event (`id` and the display strings are
behaviourally irrelevant except for `tags`).  A missing `tags` array and
an empty one behave identically in the source (`tags?.some` on
`undefined` is falsy), so `tags` is a plain list. -/
structure JournalEntry where
  date : Int
  tags : List String := []
  focusMinutes : Option Nat := none
  focusLevel : Option Nat := none
  deriving Repr, DecidableEq

/-- `Achievement` (display strings omitted).  `unlockedAt` stores the
`now` timestamp at unlock time. -/
structure Achievement where
  requirement : Nat
  progress : Nat
  unlocked : Bool
  unlockedAt : Option Int := none
  deriving Repr, DecidableEq

/-- The fixed `Record<AchievementId, Achievement>` with its four keys. -/
structure Achievements where
  streakWarrior : Achievement
  mathMastery : Achievement
  deepFocus : Achievement
  consistencyKing : Achievement
  deriving Repr, DecidableEq

/-- `Unlock` (display strings omitted). -/
structure Unlock where
  requiredLevel : Nat
  unlocked : Bool
  deriving Repr, DecidableEq

/-- The fixed `Record<UnlockId, Unlock>` with its three keys. -/
structure Unlocks where
  darkMode : Unlock
  themes : Unlock
  advancedStats : Unlock
  deriving Repr, DecidableEq

/-- `QuestType`. -/
inductive QuestType where
  | entries
  | tags
  | focus
  | streak
  deriving Repr, DecidableEq

/-- `Quest` (display strings omitted). -/
structure Quest where
  id : String
  target : Nat
  progress : Nat
  rewardXP : Nat
  completed : Bool
  claimed : Bool
  type : QuestType
  typeValue : Option String := none
  resetWeekly : Bool := false
  weekStarted : Option Int := none
  deriving Repr, DecidableEq

/-- The mutable `GamificationState` (data fields only; the zustand
actions are modelled as the pure transition functions below). -/
@[ext] structure GamificationState where
  xp : Nat
  totalEntries : Nat
  totalFocusMinutes : Nat
  mathTaggedEntries : Nat
  streak : Nat
  lastEntryDate : Option Int
  longestStreak : Nat
  achievements : Achievements
  unlocks : Unlocks
  quests : List Quest
  weeklyEntriesCount : Nat
  weeklyHighFocusDays : Nat
  weekStartDate : Option Int
  deriving Repr, DecidableEq

/-- `DEFAULT_ACHIEVEMENTS`. -/
def DEFAULT_ACHIEVEMENTS : Achievements :=
  { streakWarrior := { requirement := 7, progress := 0, unlocked := false }
    mathMastery := { requirement := 10, progress := 0, unlocked := false }
    deepFocus := { requirement := 240, progress := 0, unlocked := false }
    consistencyKing := { requirement := 20, progress := 0, unlocked := false } }

/-- `DEFAULT_UNLOCKS`. -/
def DEFAULT_UNLOCKS : Unlocks :=
  { darkMode := { requiredLevel := 3, unlocked := false }
    themes := { requiredLevel := 5, unlocked := false }
    advancedStats := { requiredLevel := 7, unlocked := false } }

/-- `DEFAULT_QUESTS` (in object-key order). -/
def DEFAULT_QUESTS : List Quest :=
  [ { id := "weekly-entries-3", target := 3, progress := 0, rewardXP := 50,
      completed := false, claimed := false, type := .entries,
      resetWeekly := true }
  , { id := "math-tags-5", target := 5, progress := 0, rewardXP := 75,
      completed := false, claimed := false, type := .tags,
      typeValue := some "math", resetWeekly := false }
  , { id := "high-focus-2-days", target := 2, progress := 0, rewardXP := 60,
      completed := false, claimed := false, type := .focus,
      resetWeekly := true } ]

/-- `INITIAL_STATE`. -/
def INITIAL_STATE : GamificationState :=
  { xp := 0
    totalEntries := 0
    totalFocusMinutes := 0
    mathTaggedEntries := 0
    streak := 0
    lastEntryDate := none
    longestStreak := 0
    achievements := DEFAULT_ACHIEVEMENTS
    unlocks := DEFAULT_UNLOCKS
    quests := DEFAULT_QUESTS
    weeklyEntriesCount := 0
    weeklyHighFocusDays := 0
    weekStartDate := none }

/-- The aggregate counters `updateAchievements` reads. -/
structure AchievementCounters where
  streak : Nat
  mathTaggedEntries : Nat
  totalFocusMinutes : Nat
  totalEntries : Nat
  deriving Repr, DecidableEq

/-- `updateAchievements` from the source: each not-yet-unlocked
achievement has its progress recomputed from the matching counter and is
unlocked at its hard-coded threshold; unlocked achievements are left
untouched.  `now` stands for `new Date().toISOString()`. -/
def updateAchievements (achievements : Achievements) (now : Int)
    (state : AchievementCounters) : Achievements :=
  let a1 :=
    if !achievements.streakWarrior.unlocked then
      { achievements with streakWarrior :=
        { achievements.streakWarrior with
          progress := state.streak
          unlocked := state.streak ≥ 7
          unlockedAt := if state.streak ≥ 7 then some now else none } }
    else achievements
  let a2 :=
    if !a1.mathMastery.unlocked then
      { a1 with mathMastery :=
        { a1.mathMastery with
          progress := state.mathTaggedEntries
          unlocked := state.mathTaggedEntries ≥ 10
          unlockedAt := if state.mathTaggedEntries ≥ 10 then some now else none } }
    else a1
  let a3 :=
    if !a2.deepFocus.unlocked then
      { a2 with deepFocus :=
        { a2.deepFocus with
          progress := state.totalFocusMinutes
          unlocked := state.totalFocusMinutes ≥ 240
          unlockedAt := if state.totalFocusMinutes ≥ 240 then some now else none } }
    else a2
  if !a3.consistencyKing.unlocked then
    { a3 with consistencyKing :=
      { a3.consistencyKing with
        progress := state.totalEntries
        unlocked := state.totalEntries ≥ 20
        unlockedAt := if state.totalEntries ≥ 20 then some now else none } }
  else a3

/-- `updateUnlocks` from the source. -/
def updateUnlocks (unlocks : Unlocks) (level : Nat) : Unlocks :=
  let u1 :=
    if !unlocks.darkMode.unlocked && level ≥ 3 then
      { unlocks with darkMode := { unlocks.darkMode with unlocked := true } }
    else unlocks
  let u2 :=
    if !u1.themes.unlocked && level ≥ 5 then
      { u1 with themes := { u1.themes with unlocked := true } }
    else u1
  if !u2.advancedStats.unlocked && level ≥ 7 then
    { u2 with advancedStats := { u2.advancedStats with unlocked := true } }
  else u2

/-- The derived focus level, as inlined twice in `_updateQuests`:
`entry.focusLevel ?? (entry.focusMinutes ? Math.round(entry.focusMinutes / 6) : 5)`.
JS truthiness makes `focusMinutes = 0` fall to the default 5, and
`Math.round(m / 6)` on a nonnegative number is `(m + 3) / 6` in integer
division (round half up). -/
def entryFocusLevel (entry : JournalEntry) : Nat :=
  match entry.focusLevel with
  | some l => l
  | none =>
    match entry.focusMinutes with
    | some m => if m == 0 then 5 else (m + 3) / 6
    | none => 5

/-- `_addXP`: no-op for `amount ≤ 0`, otherwise adds XP and re-evaluates
unlocks at the new level. -/
def addXP (amount : Int) (s : GamificationState) : GamificationState :=
  if amount ≤ 0 then s
  else
    let newXP := s.xp + amount.toNat
    let newLevel := calculateLevel newXP
    { s with xp := newXP, unlocks := updateUnlocks s.unlocks newLevel }

/-- `_updateStreak`. -/
def updateStreak (dateISOString : Int) (s : GamificationState) :
    GamificationState :=
  let r := calculateStreak s.lastEntryDate s.streak dateISOString
  { s with
    streak := r.newStreak
    lastEntryDate := some dateISOString
    longestStreak := max s.longestStreak r.newStreak }

/-- `_resetStreak`: `set({ streak: 0 })`. -/
def resetStreak (s : GamificationState) : GamificationState :=
  { s with streak := 0 }

/-- `_resetWeeklyQuests`: if the stored `weekStartDate` is in a different
week than `now`, reset every `resetWeekly` quest and both weekly
counters; in every case record the current week's Monday. -/
def resetWeeklyQuests (now : Int) (s : GamificationState) :
    GamificationState :=
  let weekStart := getWeekStart now
  match s.weekStartDate with
  | some lastWeekStart =>
    if !isSameWeek lastWeekStart now then
      { s with
        quests := s.quests.map fun quest =>
          if quest.resetWeekly then
            { quest with
              progress := 0
              completed := false
              claimed := false
              weekStarted := some weekStart }
          else quest
        weekStartDate := some weekStart
        weeklyEntriesCount := 0
        weeklyHighFocusDays := 0 }
    else { s with weekStartDate := some weekStart }
  | none => { s with weekStartDate := some weekStart }

/-- The per-quest body of the `Object.keys(...).forEach` loop in
`_updateQuests` (each quest is updated independently from the
pre-computed weekly counters and the prior state fields). -/
def updateQuestOne (s : GamificationState) (entry : JournalEntry)
    (isNewDay : Bool) (newWeeklyEntriesCount newWeeklyHighFocusDays : Nat)
    (quest : Quest) : Quest :=
  if quest.completed then quest
  else
    let newProgress :=
      match quest.type with
      | .entries =>
        if quest.resetWeekly then newWeeklyEntriesCount
        else s.totalEntries + (if isNewDay then 1 else 0)
      | .tags =>
        match quest.typeValue with
        | some tv =>
          if tv == "" then quest.progress
          else
            let hasTag := entry.tags.any fun tag => tag.toLower == tv.toLower
            if hasTag && isNewDay then quest.progress + 1 else quest.progress
        | none => quest.progress
      | .focus =>
        if quest.resetWeekly then newWeeklyHighFocusDays
        else
          let focusLevel := entryFocusLevel entry
          if 7 ≤ focusLevel ∧ isNewDay then quest.progress + 1
          else quest.progress
      | .streak =>
        (calculateStreak s.lastEntryDate s.streak entry.date).newStreak
    { quest with
      progress := min newProgress quest.target
      completed := quest.target ≤ newProgress }

/-- `_updateQuests`: recompute the weekly counters, then update every
not-yet-completed quest, clamping progress to the target. -/
def updateQuests (now : Int) (entry : JournalEntry)
    (s : GamificationState) : GamificationState :=
  let entryDate := entry.date
  let isNewDay : Bool :=
    match s.lastEntryDate with
    | none => true
    | some last => !isSameDay last entryDate
  let isCurrentWeek := isSameWeek entryDate now
  let counters :=
    if isNewDay && isCurrentWeek then
      ( s.weeklyEntriesCount + 1
      , if 7 ≤ entryFocusLevel entry then s.weeklyHighFocusDays + 1
        else s.weeklyHighFocusDays )
    else (s.weeklyEntriesCount, s.weeklyHighFocusDays)
  let newWeeklyEntriesCount := counters.1
  let newWeeklyHighFocusDays := counters.2
  { s with
    quests := s.quests.map
      (updateQuestOne s entry isNewDay newWeeklyEntriesCount
        newWeeklyHighFocusDays)
    weeklyEntriesCount := newWeeklyEntriesCount
    weeklyHighFocusDays := newWeeklyHighFocusDays }

/-- `_claimQuest`: no-op unless the quest exists, is completed and is
unclaimed; otherwise mark it claimed and then run `_addXP(rewardXP)`. -/
def claimQuest (questId : String) (s : GamificationState) :
    GamificationState :=
  match s.quests.find? (fun q => q.id == questId) with
  | none => s
  | some quest =>
    if quest.completed ∧ ¬quest.claimed then
      let s' : GamificationState :=
        { s with
          quests := s.quests.map fun q =>
            if q.id == questId then { q with claimed := true } else q }
      addXP (Int.ofNat quest.rewardXP) s'
    else s

/-- The middle `set` of `_registerEntry` (steps 2–7 of the spec's
transaction): streak, counters, XP, longest streak, achievement and
unlock evaluation, committed together. -/
def registerEntryMain (now : Int) (entry : JournalEntry)
    (s : GamificationState) : GamificationState :=
  let entryDate := entry.date
  let r := calculateStreak s.lastEntryDate s.streak entryDate
  let newTotalEntries :=
    if r.isNewDay then s.totalEntries + 1 else s.totalEntries
  let hasMathTag := entry.tags.any fun tag => tag.toLower == "math"
  let newMathTaggedEntries :=
    if hasMathTag && r.isNewDay then s.mathTaggedEntries + 1
    else s.mathTaggedEntries
  let newTotalFocusMinutes :=
    s.totalFocusMinutes + entry.focusMinutes.getD 0
  let xpReward :=
    (if r.isNewDay then
      10 + (if s.streak < r.newStreak then r.newStreak * 2 else 0)
    else 0) +
    (match entry.focusMinutes with
     | some m => if m == 0 then 0 else m / 5
     | none => 0)
  let newXP := s.xp + xpReward
  let newLevel := calculateLevel newXP
  let newLongestStreak := max s.longestStreak r.newStreak
  let updatedAchievements := updateAchievements s.achievements now
    { streak := r.newStreak
      mathTaggedEntries := newMathTaggedEntries
      totalFocusMinutes := newTotalFocusMinutes
      totalEntries := newTotalEntries }
  let updatedUnlocks := updateUnlocks s.unlocks newLevel
  { s with
    xp := newXP
    streak := r.newStreak
    lastEntryDate := some entry.date
    longestStreak := newLongestStreak
    totalEntries := newTotalEntries
    mathTaggedEntries := newMathTaggedEntries
    totalFocusMinutes := newTotalFocusMinutes
    achievements := updatedAchievements
    unlocks := updatedUnlocks }

/-- `_registerEntry`: weekly reset, then the main commit, then the quest
update against the freshly committed state. -/
def registerEntry (now : Int) (entry : JournalEntry)
    (s : GamificationState) : GamificationState :=
  updateQuests now entry (registerEntryMain now entry (resetWeeklyQuests now s))

/-- `_resetState`: `set(INITIAL_STATE)`. -/
def resetState (_s : GamificationState) : GamificationState :=
  INITIAL_STATE

/-- The public mutators exposed by the `useGamification` hook
(`addXP`, `registerEntry`, `updateStreakOnEntry`, `resetStreak`,
`claimQuest`, `updateQuestsOnEntry`, `resetWeeklyQuests`, `resetState`);
wall-clock reads are the explicit `now` arguments. -/
inductive Op where
  | addXP (amount : Int)
  | registerEntry (now : Int) (entry : JournalEntry)
  | updateStreakOnEntry (date : Int)
  | resetStreak
  | claimQuest (questId : String)
  | updateQuestsOnEntry (now : Int) (entry : JournalEntry)
  | resetWeeklyQuests (now : Int)
  | resetState
  deriving Repr, DecidableEq

/-- Apply one public mutator. -/
def applyOp : Op → GamificationState → GamificationState
  | .addXP amount, s => addXP amount s
  | .registerEntry now entry, s => registerEntry now entry s
  | .updateStreakOnEntry date, s => updateStreak date s
  | .resetStreak, s => resetStreak s
  | .claimQuest questId, s => claimQuest questId s
  | .updateQuestsOnEntry now entry, s => updateQuests now entry s
  | .resetWeeklyQuests now, s => resetWeeklyQuests now s
  | .resetState, s => resetState s

/-- States reachable from `INITIAL_STATE` by public mutators. -/
inductive Reachable : GamificationState → Prop where
  | init : Reachable INITIAL_STATE
  | step (op : Op) {s : GamificationState} :
      Reachable s → Reachable (applyOp op s)

/-! ### Frame lemmas -/

theorem resetWeeklyQuests_xp (now : Int) (s : GamificationState) :
    (resetWeeklyQuests now s).xp = s.xp := by
  unfold resetWeeklyQuests
  cases s.weekStartDate <;> simp <;> split <;> rfl

theorem resetWeeklyQuests_totalEntries (now : Int) (s : GamificationState) :
    (resetWeeklyQuests now s).totalEntries = s.totalEntries := by
  unfold resetWeeklyQuests
  cases s.weekStartDate <;> simp <;> split <;> rfl

theorem resetWeeklyQuests_totalFocusMinutes (now : Int) (s : GamificationState) :
    (resetWeeklyQuests now s).totalFocusMinutes = s.totalFocusMinutes := by
  unfold resetWeeklyQuests
  cases s.weekStartDate <;> simp <;> split <;> rfl

theorem resetWeeklyQuests_mathTaggedEntries (now : Int) (s : GamificationState) :
    (resetWeeklyQuests now s).mathTaggedEntries = s.mathTaggedEntries := by
  unfold resetWeeklyQuests
  cases s.weekStartDate <;> simp <;> split <;> rfl

theorem resetWeeklyQuests_streak (now : Int) (s : GamificationState) :
    (resetWeeklyQuests now s).streak = s.streak := by
  unfold resetWeeklyQuests
  cases s.weekStartDate <;> simp <;> split <;> rfl

theorem resetWeeklyQuests_lastEntryDate (now : Int) (s : GamificationState) :
    (resetWeeklyQuests now s).lastEntryDate = s.lastEntryDate := by
  unfold resetWeeklyQuests
  cases s.weekStartDate <;> simp <;> split <;> rfl

theorem resetWeeklyQuests_longestStreak (now : Int) (s : GamificationState) :
    (resetWeeklyQuests now s).longestStreak = s.longestStreak := by
  unfold resetWeeklyQuests
  cases s.weekStartDate <;> simp <;> split <;> rfl

theorem resetWeeklyQuests_achievements (now : Int) (s : GamificationState) :
    (resetWeeklyQuests now s).achievements = s.achievements := by
  unfold resetWeeklyQuests
  cases s.weekStartDate <;> simp <;> split <;> rfl

theorem resetWeeklyQuests_unlocks (now : Int) (s : GamificationState) :
    (resetWeeklyQuests now s).unlocks = s.unlocks := by
  unfold resetWeeklyQuests
  cases s.weekStartDate <;> simp <;> split <;> rfl

theorem updateQuests_xp (now : Int) (entry : JournalEntry)
    (s : GamificationState) : (updateQuests now entry s).xp = s.xp := rfl

theorem updateQuests_totalEntries (now : Int) (entry : JournalEntry)
    (s : GamificationState) :
    (updateQuests now entry s).totalEntries = s.totalEntries := rfl

theorem updateQuests_totalFocusMinutes (now : Int) (entry : JournalEntry)
    (s : GamificationState) :
    (updateQuests now entry s).totalFocusMinutes = s.totalFocusMinutes := rfl

theorem updateQuests_mathTaggedEntries (now : Int) (entry : JournalEntry)
    (s : GamificationState) :
    (updateQuests now entry s).mathTaggedEntries = s.mathTaggedEntries := rfl

theorem updateQuests_streak (now : Int) (entry : JournalEntry)
    (s : GamificationState) : (updateQuests now entry s).streak = s.streak := rfl

theorem updateQuests_lastEntryDate (now : Int) (entry : JournalEntry)
    (s : GamificationState) :
    (updateQuests now entry s).lastEntryDate = s.lastEntryDate := rfl

theorem updateQuests_longestStreak (now : Int) (entry : JournalEntry)
    (s : GamificationState) :
    (updateQuests now entry s).longestStreak = s.longestStreak := rfl

theorem updateQuests_achievements (now : Int) (entry : JournalEntry)
    (s : GamificationState) :
    (updateQuests now entry s).achievements = s.achievements := rfl

/-- The focus-minutes XP summand of `_registerEntry` equals
`floor(focusMinutes / 5)` with a missing value defaulting to `0`. -/
theorem focusReward_eq (fm : Option Nat) :
    (match fm with
     | some m => if m == 0 then 0 else m / 5
     | none => 0) = fm.getD 0 / 5 := by
  cases fm with
  | none => rfl
  | some m =>
    by_cases h : m = 0 <;> simp [h]

/-! ### C3: the streak calculator's case analysis -/

/-- C3: for every nullable last entry date, current streak and entry
date, `calculateStreak` returns streak 1 / new day on a null last date,
the unchanged streak / not-new-day on a same-calendar-day entry,
streak + 1 / new day on an entry exactly one calendar day later, and
streak 1 / new day on any other gap — including entry dates strictly
before the last entry date. -/
theorem streakCalculator_cases (currentStreak : Nat) (entryDate : Int) :
    calculateStreak none currentStreak entryDate =
      { newStreak := 1, isNewDay := true } ∧
    (∀ last : Int, isSameDay last entryDate = true →
      calculateStreak (some last) currentStreak entryDate =
        { newStreak := currentStreak, isNewDay := false }) ∧
    (∀ last : Int, isYesterday last entryDate = true →
      calculateStreak (some last) currentStreak entryDate =
        { newStreak := currentStreak + 1, isNewDay := true }) ∧
    (∀ last : Int, isSameDay last entryDate = false →
      isYesterday last entryDate = false →
      calculateStreak (some last) currentStreak entryDate =
        { newStreak := 1, isNewDay := true }) ∧
    (∀ last : Int, entryDate < last →
      calculateStreak (some last) currentStreak entryDate =
        { newStreak := 1, isNewDay := true }) := by
  refine ⟨rfl, ?_, ?_, ?_, ?_⟩
  · intro last h
    simp [calculateStreak, h]
  · intro last h
    have h' : last = entryDate - 1 := by
      simpa [isYesterday, isSameDay] using h
    have hs : isSameDay last entryDate = false := by
      simp only [isSameDay, beq_eq_false_iff_ne, ne_eq]
      omega
    simp [calculateStreak, hs, h]
  · intro last h1 h2
    simp [calculateStreak, h1, h2]
  · intro last h
    have h1 : isSameDay last entryDate = false := by
      simp only [isSameDay, beq_eq_false_iff_ne, ne_eq]
      omega
    have h2 : isYesterday last entryDate = false := by
      simp only [isYesterday, isSameDay, beq_eq_false_iff_ne, ne_eq]
      omega
    simp [calculateStreak, h1, h2]

/-- Witness for C3: the four branches at concrete dates (last entry on
day 4, current streak 3). -/
theorem streakCalculator_cases_witness :
    calculateStreak none 3 9 = { newStreak := 1, isNewDay := true } ∧
    calculateStreak (some 4) 3 4 = { newStreak := 3, isNewDay := false } ∧
    calculateStreak (some 4) 3 5 = { newStreak := 4, isNewDay := true } ∧
    calculateStreak (some 4) 3 9 = { newStreak := 1, isNewDay := true } ∧
    calculateStreak (some 4) 3 2 = { newStreak := 1, isNewDay := true } :=
  ⟨(streakCalculator_cases 3 9).1,
   (streakCalculator_cases 3 4).2.1 4 (by decide),
   (streakCalculator_cases 3 5).2.2.1 4 (by decide),
   (streakCalculator_cases 3 9).2.2.2.1 4 (by decide) (by decide),
   (streakCalculator_cases 3 2).2.2.2.2 4 (by decide)⟩

/-! ### C8: the leveling arithmetic -/

/-- C8: for every `xp : Nat`, the derived level is `floor(xp / 100)`
(in particular 0 below 100 XP), and the XP progress within the current
level plus the level's threshold reconstructs `xp` exactly, where the
threshold of a level is `level * 100`. -/
theorem leveling_arithmetic (xp : Nat) :
    calculateLevel xp = xp / 100 ∧
    (xp < 100 → calculateLevel xp = 0) ∧
    getXPForLevel (calculateLevel xp) = calculateLevel xp * 100 ∧
    (getXPProgress xp).current + getXPForLevel (calculateLevel xp) = xp := by
  refine ⟨?_, ?_, rfl, ?_⟩
  · unfold calculateLevel
    split <;> omega
  · intro h
    unfold calculateLevel
    simp [h]
  · unfold getXPProgress getXPForLevel calculateLevel
    split <;> simp <;> omega

/-- Witness for C8 at `xp = 150`: level 1, 50 XP into the level,
`50 + 100 = 150`. -/
theorem leveling_arithmetic_witness :
    calculateLevel 150 = 150 / 100 ∧
    calculateLevel 42 = 0 ∧
    (getXPProgress 150).current + getXPForLevel (calculateLevel 150) = 150 :=
  ⟨(leveling_arithmetic 150).1,
   (leveling_arithmetic 42).2.1 (by decide),
   (leveling_arithmetic 150).2.2.2⟩

/-! ### C10: `resetStreak` clears only `streak` -/

/-- C10: for every state, `resetStreak` sets `streak` to 0 and leaves
every other field — `lastEntryDate`, `longestStreak`, `xp`, all
counters, achievements, unlocks, quests and the weekly tracking
fields — unchanged. -/
theorem resetStreak_only_clears_streak (s : GamificationState) :
    (resetStreak s).streak = 0 ∧
    (resetStreak s).lastEntryDate = s.lastEntryDate ∧
    (resetStreak s).longestStreak = s.longestStreak ∧
    (resetStreak s).xp = s.xp ∧
    (resetStreak s).totalEntries = s.totalEntries ∧
    (resetStreak s).totalFocusMinutes = s.totalFocusMinutes ∧
    (resetStreak s).mathTaggedEntries = s.mathTaggedEntries ∧
    (resetStreak s).achievements = s.achievements ∧
    (resetStreak s).unlocks = s.unlocks ∧
    (resetStreak s).quests = s.quests ∧
    (resetStreak s).weeklyEntriesCount = s.weeklyEntriesCount ∧
    (resetStreak s).weeklyHighFocusDays = s.weeklyHighFocusDays ∧
    (resetStreak s).weekStartDate = s.weekStartDate := by
  refine ⟨rfl, rfl, rfl, rfl, rfl, rfl, rfl, rfl, rfl, rfl, rfl, rfl, rfl⟩

/-! ### C1: weekly counters through `registerEntry` (code bug) -/

/-- C1 (code bug): a first-ever entry on day 0 is a new calendar day,
falls in the current week, and has derived focus level 8 ≥ 7, so by the
spec `registerEntry` should raise `weeklyEntriesCount` and
`weeklyHighFocusDays` to 1 — but the implementation runs `_updateQuests`
only after committing `lastEntryDate := entry.date`, so the quest
update's new-day check always sees a same-day entry and both counters
stay 0 (its `weekly-entries-3` quest progress stays 0 as well, which
also contradicts the repository's own test
"should update quest progress on entry").  Running the same quest update
against the pre-commit state yields the specified counters. -/
theorem registerEntry_weekly_counters_stuck :
    (calculateStreak INITIAL_STATE.lastEntryDate INITIAL_STATE.streak
      (0 : Int)).isNewDay = true ∧
    isSameWeek 0 0 = true ∧
    7 ≤ entryFocusLevel { date := 0, focusLevel := some 8 } ∧
    (registerEntry 0 { date := 0, focusLevel := some 8 }
      INITIAL_STATE).weeklyEntriesCount = 0 ∧
    (registerEntry 0 { date := 0, focusLevel := some 8 }
      INITIAL_STATE).weeklyHighFocusDays = 0 ∧
    ((registerEntry 0 { date := 0, focusLevel := some 8 }
      INITIAL_STATE).quests.map Quest.progress) = [0, 0, 0] ∧
    (updateQuests 0 { date := 0, focusLevel := some 8 }
      (resetWeeklyQuests 0 INITIAL_STATE)).weeklyEntriesCount = 1 ∧
    (updateQuests 0 { date := 0, focusLevel := some 8 }
      (resetWeeklyQuests 0 INITIAL_STATE)).weeklyHighFocusDays = 1 := by
  decide

/-! ### C4: duplicate-same-day entries -/

/-- C4: when the entry's date is the same calendar day as the state's
`lastEntryDate`, `registerEntry` leaves `streak`, `totalEntries` and
`mathTaggedEntries` unchanged, adds the entry's `focusMinutes`
(defaulting to 0) to `totalFocusMinutes`, and adds exactly
`floor(focusMinutes / 5)` XP — the focus-based reward only. -/
theorem registerEntry_same_day_effects (now : Int) (entry : JournalEntry)
    (s : GamificationState) (d : Int) (h1 : s.lastEntryDate = some d)
    (h2 : isSameDay d entry.date = true) :
    (registerEntry now entry s).streak = s.streak ∧
    (registerEntry now entry s).totalEntries = s.totalEntries ∧
    (registerEntry now entry s).mathTaggedEntries = s.mathTaggedEntries ∧
    (registerEntry now entry s).totalFocusMinutes
      = s.totalFocusMinutes + entry.focusMinutes.getD 0 ∧
    (registerEntry now entry s).xp = s.xp + entry.focusMinutes.getD 0 / 5 := by
  have hstreak : calculateStreak (resetWeeklyQuests now s).lastEntryDate
      (resetWeeklyQuests now s).streak entry.date =
      { newStreak := s.streak, isNewDay := false } := by
    rw [resetWeeklyQuests_lastEntryDate, resetWeeklyQuests_streak, h1]
    simp [calculateStreak, h2]
  refine ⟨?_, ?_, ?_, ?_, ?_⟩
  · rw [registerEntry, updateQuests_streak]
    simp [registerEntryMain, hstreak]
  · rw [registerEntry, updateQuests_totalEntries]
    simp [registerEntryMain, hstreak, resetWeeklyQuests_totalEntries]
  · rw [registerEntry, updateQuests_mathTaggedEntries]
    simp [registerEntryMain, hstreak, resetWeeklyQuests_mathTaggedEntries]
  · rw [registerEntry, updateQuests_totalFocusMinutes]
    simp [registerEntryMain, resetWeeklyQuests_totalFocusMinutes]
  · rw [registerEntry, updateQuests_xp]
    simp [registerEntryMain, hstreak, resetWeeklyQuests_xp]
    cases entry.focusMinutes with
    | none => rfl
    | some m => by_cases h : m = 0 <;> simp [h]

/-- Witness for C4: a second entry on day 5 (23 focus minutes) against a
state whose last entry was day 5 with streak 2: the streak and the
day-based counters stay put, focus minutes add up, and XP grows by
`floor(23 / 5) = 4`. -/
theorem registerEntry_same_day_effects_witness :
    (registerEntry 0 { date := 5, focusMinutes := some 23 }
      { INITIAL_STATE with
        lastEntryDate := some 5, streak := 2, longestStreak := 2,
        totalEntries := 2, totalFocusMinutes := 30, xp := 24 }).streak = 2 ∧
    (registerEntry 0 { date := 5, focusMinutes := some 23 }
      { INITIAL_STATE with
        lastEntryDate := some 5, streak := 2, longestStreak := 2,
        totalEntries := 2, totalFocusMinutes := 30, xp := 24 }).totalEntries = 2 ∧
    (registerEntry 0 { date := 5, focusMinutes := some 23 }
      { INITIAL_STATE with
        lastEntryDate := some 5, streak := 2, longestStreak := 2,
        totalEntries := 2, totalFocusMinutes := 30, xp := 24 }).totalFocusMinutes
      = 53 ∧
    (registerEntry 0 { date := 5, focusMinutes := some 23 }
      { INITIAL_STATE with
        lastEntryDate := some 5, streak := 2, longestStreak := 2,
        totalEntries := 2, totalFocusMinutes := 30, xp := 24 }).xp = 28 := by
  have h := registerEntry_same_day_effects 0
    { date := 5, focusMinutes := some 23 }
    { INITIAL_STATE with
      lastEntryDate := some 5, streak := 2, longestStreak := 2,
      totalEntries := 2, totalFocusMinutes := 30, xp := 24 }
    5 rfl (by decide)
  exact ⟨h.1, h.2.1, h.2.2.2.1, h.2.2.2.2⟩

/-! ### C9: the `claimQuest` guard -/

/-- C9: `claimQuest(id)` leaves the state unchanged unless a quest with
that id exists, is completed and is unclaimed; when those conditions
hold the result is exactly the XP mutator applied (with the quest's
`rewardXP`) to the state that differs from the original only in that
quest's `claimed` flag — claimed is set first, the XP award second, and
nothing else changes beyond what the XP mutator changes. -/
theorem claimQuest_guarded_transition (questId : String)
    (s : GamificationState) :
    (s.quests.find? (fun q => q.id == questId) = none →
      claimQuest questId s = s) ∧
    (∀ quest, s.quests.find? (fun q => q.id == questId) = some quest →
      (quest.completed = false → claimQuest questId s = s) ∧
      (quest.claimed = true → claimQuest questId s = s) ∧
      (quest.completed = true → quest.claimed = false →
        claimQuest questId s =
          addXP (Int.ofNat quest.rewardXP)
            { s with quests := s.quests.map fun q =>
                if q.id == questId then { q with claimed := true } else q })) := by
  constructor
  · intro h
    unfold claimQuest
    rw [h]
  · intro quest h
    refine ⟨?_, ?_, ?_⟩
    · intro hc
      unfold claimQuest
      rw [h]
      simp [hc]
    · intro hc
      unfold claimQuest
      rw [h]
      simp [hc]
    · intro hc hcl
      unfold claimQuest
      rw [h]
      simp [hc, hcl]

/-- Witness for C9: on a state holding one completed unclaimed quest of
50 reward XP, `claimQuest` marks it claimed and pays the reward; on the
initial state, claiming a nonexistent id and an incomplete quest are
both no-ops. -/
theorem claimQuest_guarded_transition_witness :
    claimQuest "no-such-quest" INITIAL_STATE = INITIAL_STATE ∧
    claimQuest "weekly-entries-3" INITIAL_STATE = INITIAL_STATE ∧
    claimQuest "weekly-entries-3"
      { INITIAL_STATE with quests :=
        [ { id := "weekly-entries-3", target := 3, progress := 3,
            rewardXP := 50, completed := true, claimed := false,
            type := .entries, resetWeekly := true } ] } =
      addXP (Int.ofNat 50)
        { INITIAL_STATE with quests :=
          [ { id := "weekly-entries-3", target := 3, progress := 3,
              rewardXP := 50, completed := true, claimed := true,
              type := .entries, resetWeekly := true } ] } := by
  refine ⟨?_, ?_, ?_⟩
  · exact (claimQuest_guarded_transition "no-such-quest" INITIAL_STATE).1
      (by decide)
  · exact ((claimQuest_guarded_transition "weekly-entries-3"
      INITIAL_STATE).2
      { id := "weekly-entries-3", target := 3, progress := 0,
        rewardXP := 50, completed := false, claimed := false,
        type := QuestType.entries, resetWeekly := true }
      (by decide)).1 (by decide)
  · have h := ((claimQuest_guarded_transition "weekly-entries-3"
      { INITIAL_STATE with quests :=
        [ { id := "weekly-entries-3", target := 3, progress := 3,
            rewardXP := 50, completed := true, claimed := false,
            type := QuestType.entries, resetWeekly := true } ] }).2
      { id := "weekly-entries-3", target := 3, progress := 3,
        rewardXP := 50, completed := true, claimed := false,
        type := QuestType.entries, resetWeekly := true }
      (by decide)).2.2 (by decide) (by decide)
    rw [h]
    decide

/-! ### C2: steps 1–7 as a single-read single-commit transition -/

/-- Spec-side formulation of the §4.6 guarantee: steps 1–7 (weekly-reset
check, streak computation, counter/XP/longestStreak updates, achievement
and unlock evaluation) computed from ONE read of the prior state `s` and
committed as ONE snapshot (a single record literal below), after which
the quest update runs as a second transaction observing only that
committed snapshot. -/
def registerEntrySingleCommit (now : Int) (entry : JournalEntry)
    (s : GamificationState) : GamificationState :=
  let weekStart := getWeekStart now
  let weeklyResetNeeded : Bool :=
    match s.weekStartDate with
    | some lastWeekStart => !isSameWeek lastWeekStart now
    | none => false
  let r := calculateStreak s.lastEntryDate s.streak entry.date
  let newTotalEntries :=
    if r.isNewDay then s.totalEntries + 1 else s.totalEntries
  let hasMathTag := entry.tags.any fun tag => tag.toLower == "math"
  let newMathTaggedEntries :=
    if hasMathTag && r.isNewDay then s.mathTaggedEntries + 1
    else s.mathTaggedEntries
  let newTotalFocusMinutes :=
    s.totalFocusMinutes + entry.focusMinutes.getD 0
  let xpReward :=
    (if r.isNewDay then
      10 + (if s.streak < r.newStreak then r.newStreak * 2 else 0)
    else 0) +
    (match entry.focusMinutes with
     | some m => if m == 0 then 0 else m / 5
     | none => 0)
  let newXP := s.xp + xpReward
  let committed : GamificationState :=
    { xp := newXP
      totalEntries := newTotalEntries
      totalFocusMinutes := newTotalFocusMinutes
      mathTaggedEntries := newMathTaggedEntries
      streak := r.newStreak
      lastEntryDate := some entry.date
      longestStreak := max s.longestStreak r.newStreak
      achievements := updateAchievements s.achievements now
        { streak := r.newStreak
          mathTaggedEntries := newMathTaggedEntries
          totalFocusMinutes := newTotalFocusMinutes
          totalEntries := newTotalEntries }
      unlocks := updateUnlocks s.unlocks (calculateLevel newXP)
      quests :=
        if weeklyResetNeeded then
          s.quests.map fun quest =>
            if quest.resetWeekly then
              { quest with
                progress := 0
                completed := false
                claimed := false
                weekStarted := some weekStart }
            else quest
        else s.quests
      weeklyEntriesCount := if weeklyResetNeeded then 0 else s.weeklyEntriesCount
      weeklyHighFocusDays := if weeklyResetNeeded then 0 else s.weeklyHighFocusDays
      weekStartDate := some weekStart }
  updateQuests now entry committed

/-- C2: the implementation of `_registerEntry` — a weekly-reset commit,
then a second commit for steps 2–7, then the quest transaction — is
equal, as a state transition, to the spec's single-read single-commit
transition for steps 1–7 followed by the quest transaction on the
post-commit state: no intermediate state between steps 1–7 is
observable. -/
theorem registerEntry_single_commit_refinement (now : Int)
    (entry : JournalEntry) (s : GamificationState) :
    registerEntry now entry s = registerEntrySingleCommit now entry s := by
  unfold registerEntry registerEntrySingleCommit
  congr 1
  cases h : s.weekStartDate with
  | none =>
    simp only [registerEntryMain, resetWeeklyQuests, h,
      Bool.false_eq_true, if_false]
  | some lastWeekStart =>
    cases hw : isSameWeek lastWeekStart now <;>
      simp only [registerEntryMain, resetWeeklyQuests, h, hw,
        Bool.not_true, Bool.not_false, Bool.false_eq_true, if_false,
        ite_true, ite_false]

/-! ### More frame lemmas, for the reachability invariants -/

theorem addXP_quests (amount : Int) (s : GamificationState) :
    (addXP amount s).quests = s.quests := by
  unfold addXP
  split <;> rfl

theorem addXP_achievements (amount : Int) (s : GamificationState) :
    (addXP amount s).achievements = s.achievements := by
  unfold addXP
  split <;> rfl

theorem addXP_streak (amount : Int) (s : GamificationState) :
    (addXP amount s).streak = s.streak := by
  unfold addXP
  split <;> rfl

theorem addXP_longestStreak (amount : Int) (s : GamificationState) :
    (addXP amount s).longestStreak = s.longestStreak := by
  unfold addXP
  split <;> rfl

theorem claimQuest_achievements (questId : String) (s : GamificationState) :
    (claimQuest questId s).achievements = s.achievements := by
  unfold claimQuest
  split
  · rfl
  · split
    · exact addXP_achievements _ _
    · rfl

theorem claimQuest_streak (questId : String) (s : GamificationState) :
    (claimQuest questId s).streak = s.streak := by
  unfold claimQuest
  split
  · rfl
  · split
    · exact addXP_streak _ _
    · rfl

theorem claimQuest_longestStreak (questId : String) (s : GamificationState) :
    (claimQuest questId s).longestStreak = s.longestStreak := by
  unfold claimQuest
  split
  · rfl
  · split
    · exact addXP_longestStreak _ _
    · rfl

theorem registerEntryMain_quests (now : Int) (entry : JournalEntry)
    (s : GamificationState) :
    (registerEntryMain now entry s).quests = s.quests := rfl

/-- `registerEntry` commits `longestStreak = max(prior, newStreak)` where
`newStreak` is the committed streak. -/
theorem registerEntry_longest_max (now : Int) (entry : JournalEntry)
    (s : GamificationState) :
    (registerEntry now entry s).longestStreak
      = max s.longestStreak (registerEntry now entry s).streak := by
  rw [registerEntry, updateQuests_longestStreak, updateQuests_streak]
  simp [registerEntryMain, resetWeeklyQuests_longestStreak]

theorem updateStreak_longest_max (date : Int) (s : GamificationState) :
    (updateStreak date s).longestStreak
      = max s.longestStreak (updateStreak date s).streak := rfl

/-! ### The quest well-formedness invariant (C5) -/

/-- The per-quest invariant of the spec: progress clamped to
`[0, target]`, `completed ⇔ progress ≥ target`, `claimed ⇒ completed`. -/
def QuestInvariant (q : Quest) : Prop :=
  0 ≤ q.progress ∧ q.progress ≤ q.target ∧
  (q.completed = true ↔ q.target ≤ q.progress) ∧
  (q.claimed = true → q.completed = true)

instance (q : Quest) : Decidable (QuestInvariant q) := by
  unfold QuestInvariant
  infer_instance

/-- Every quest in the state satisfies the per-quest invariant. -/
def questInvariantsHold (s : GamificationState) : Prop :=
  ∀ q ∈ s.quests, QuestInvariant q

/-- The strengthened inductive invariant: quest ids are pairwise
distinct (they are object keys in the source) and every quest satisfies
the per-quest invariant and has a positive target. -/
def QuestsWF (s : GamificationState) : Prop :=
  (s.quests.map Quest.id).Nodup ∧
  ∀ q ∈ s.quests, QuestInvariant q ∧ 1 ≤ q.target

theorem initial_QuestsWF : QuestsWF INITIAL_STATE := by
  constructor
  · decide
  · decide

/-- Mapping an id-preserving function over the quest list leaves the id
list unchanged. -/
theorem map_id_of_id_preserving (f : Quest → Quest)
    (hf : ∀ q, (f q).id = q.id) (l : List Quest) :
    (l.map f).map Quest.id = l.map Quest.id := by
  induction l with
  | nil => rfl
  | cons x xs ih => simp only [List.map_cons, hf x, ih]

theorem nodup_map_of_id_preserving (f : Quest → Quest)
    (hf : ∀ q, (f q).id = q.id) (l : List Quest)
    (h : (l.map Quest.id).Nodup) : ((l.map f).map Quest.id).Nodup := by
  rw [map_id_of_id_preserving f hf l]
  exact h

/-- With pairwise-distinct ids, two members sharing an id coincide. -/
theorem eq_of_mem_of_id_eq {l : List Quest}
    (h : (l.map Quest.id).Nodup) {a b : Quest} (ha : a ∈ l) (hb : b ∈ l)
    (hid : a.id = b.id) : a = b := by
  induction l with
  | nil => cases ha
  | cons x xs ih =>
    simp only [List.map_cons, List.nodup_cons] at h
    rcases List.mem_cons.mp ha with rfl | ha' <;>
      rcases List.mem_cons.mp hb with rfl | hb'
    · rfl
    · exact absurd (hid ▸ List.mem_map_of_mem Quest.id hb') h.1
    · exact absurd (hid ▸ List.mem_map_of_mem Quest.id ha') h.1
    · exact ih h.2 ha' hb'

theorem updateQuestOne_id (s : GamificationState) (entry : JournalEntry)
    (isNewDay : Bool) (wec whfd : Nat) (q : Quest) :
    (updateQuestOne s entry isNewDay wec whfd q).id = q.id := by
  unfold updateQuestOne
  split <;> rfl

theorem updateQuestOne_target (s : GamificationState)
    (entry : JournalEntry) (isNewDay : Bool) (wec whfd : Nat) (q : Quest) :
    (updateQuestOne s entry isNewDay wec whfd q).target = q.target := by
  unfold updateQuestOne
  split <;> rfl

/-- The forEach body of `_updateQuests` preserves the per-quest
invariant: a completed quest is untouched, an active one gets a clamped
progress and a consistent `completed` flag, and its unclaimed status
persists. -/
theorem updateQuestOne_invariant (s : GamificationState)
    (entry : JournalEntry) (isNewDay : Bool) (wec whfd : Nat) (q : Quest)
    (hq : QuestInvariant q) :
    QuestInvariant (updateQuestOne s entry isNewDay wec whfd q) := by
  unfold updateQuestOne
  by_cases hc : q.completed = true
  · simp only [hc, if_true]
    exact hq
  · rw [if_neg (by simpa using hc)]
    refine ⟨Nat.zero_le _, min_le_right _ _, ?_, ?_⟩
    · simp only [decide_eq_true_eq]
      constructor
      · intro h
        exact le_min h le_rfl
      · intro h
        exact le_trans h (min_le_left _ _)
    · intro hcl
      exact absurd (hq.2.2.2 hcl) hc

theorem updateQuests_WF (now : Int) (entry : JournalEntry)
    (s : GamificationState) (h : QuestsWF s) :
    QuestsWF (updateQuests now entry s) := by
  obtain ⟨hnd, hinv⟩ := h
  constructor
  · exact nodup_map_of_id_preserving _
      (updateQuestOne_id s entry _ _ _) s.quests hnd
  · intro q hqmem
    obtain ⟨q0, hq0, rfl⟩ := List.mem_map.mp hqmem
    refine ⟨updateQuestOne_invariant _ _ _ _ _ _ (hinv q0 hq0).1, ?_⟩
    rw [updateQuestOne_target]
    exact (hinv q0 hq0).2

theorem resetWeeklyQuests_WF (now : Int) (s : GamificationState)
    (h : QuestsWF s) : QuestsWF (resetWeeklyQuests now s) := by
  obtain ⟨hnd, hinv⟩ := h
  unfold resetWeeklyQuests
  cases s.weekStartDate with
  | none => exact ⟨hnd, hinv⟩
  | some lastWeekStart =>
    simp only
    split
    · constructor
      · apply nodup_map_of_id_preserving _ _ s.quests hnd
        intro q
        split <;> rfl
      · intro q hqmem
        obtain ⟨q0, hq0, rfl⟩ := List.mem_map.mp hqmem
        obtain ⟨hq0inv, hq0t⟩ := hinv q0 hq0
        split
        · refine ⟨⟨le_rfl, Nat.zero_le _, ?_, ?_⟩, hq0t⟩
          · simp only [Bool.false_eq_true, false_iff]
            omega
          · intro hcl
            cases hcl
        · exact ⟨hq0inv, hq0t⟩
    · exact ⟨hnd, hinv⟩

theorem claimQuest_WF (questId : String) (s : GamificationState)
    (h : QuestsWF s) : QuestsWF (claimQuest questId s) := by
  obtain ⟨hnd, hinv⟩ := h
  unfold claimQuest
  split
  · exact ⟨hnd, hinv⟩
  next quest hf =>
    split
    case isFalse => exact ⟨hnd, hinv⟩
    case isTrue hcond =>
      rw [QuestsWF, addXP_quests]
      have hqmem : quest ∈ s.quests := List.mem_of_find?_eq_some hf
      have hqid : quest.id = questId := by simpa using List.find?_some hf
      constructor
      · apply nodup_map_of_id_preserving _ _ s.quests hnd
        intro q
        split <;> rfl
      · intro q hmem
        obtain ⟨q0, hq0, rfl⟩ := List.mem_map.mp hmem
        obtain ⟨hq0inv, hq0t⟩ := hinv q0 hq0
        by_cases hid : (q0.id == questId) = true
        · have : q0 = quest :=
            eq_of_mem_of_id_eq hnd hq0 hqmem
              (by rw [beq_iff_eq] at hid; rw [hid, hqid])
          subst this
          rw [if_pos hid]
          exact ⟨⟨hq0inv.1, hq0inv.2.1,
            by simpa [hcond.1] using hq0inv.2.2.1,
            fun _ => hcond.1⟩, hq0t⟩
        · rw [if_neg (by simpa using hid)]
          exact ⟨hq0inv, hq0t⟩

theorem applyOp_WF (op : Op) (s : GamificationState) (h : QuestsWF s) :
    QuestsWF (applyOp op s) := by
  cases op with
  | addXP amount =>
    rw [applyOp, QuestsWF, addXP_quests]
    exact h
  | registerEntry now entry =>
    rw [applyOp, registerEntry]
    apply updateQuests_WF
    rw [QuestsWF, registerEntryMain_quests]
    exact resetWeeklyQuests_WF now s h
  | updateStreakOnEntry date => exact h
  | resetStreak => exact h
  | claimQuest questId => exact claimQuest_WF questId s h
  | updateQuestsOnEntry now entry => exact updateQuests_WF now entry s h
  | resetWeeklyQuests now => exact resetWeeklyQuests_WF now s h
  | resetState => exact initial_QuestsWF

theorem reachable_WF {s : GamificationState} (h : Reachable s) :
    QuestsWF s := by
  induction h with
  | init => exact initial_QuestsWF
  | step op hs ih => exact applyOp_WF op _ ih

/-- C5: in every state reachable from the initial state by the public
operations (`registerEntry`, `addXP`, `claimQuest`, `resetStreak`,
`resetWeeklyQuests`, `resetState`, the per-entry quest update, and the
streak update), every quest satisfies `0 ≤ progress ≤ target`,
`completed ⇔ progress ≥ target`, and `claimed ⇒ completed`. -/
theorem quest_invariants_reachable (s : GamificationState)
    (h : Reachable s) : questInvariantsHold s :=
  fun q hq => ((reachable_WF h).2 q hq).1

/-- Witness for C5: the invariant after registering a math-tagged,
30-focus-minute entry on day 0 against the initial state. -/
theorem quest_invariants_reachable_witness :
    questInvariantsHold
      (applyOp
        (Op.registerEntry 0
          { date := 0, tags := ["math"], focusMinutes := some 30 })
        INITIAL_STATE) :=
  quest_invariants_reachable _
    (Reachable.step _ Reachable.init)

/-! ### C6: achievement monotonicity -/

/-- An unlocked achievement is carried over exactly (still unlocked,
progress and `unlockedAt` untouched). -/
def achievementsPreserved (a a' : Achievements) : Prop :=
  (a.streakWarrior.unlocked = true → a'.streakWarrior = a.streakWarrior) ∧
  (a.mathMastery.unlocked = true → a'.mathMastery = a.mathMastery) ∧
  (a.deepFocus.unlocked = true → a'.deepFocus = a.deepFocus) ∧
  (a.consistencyKing.unlocked = true → a'.consistencyKing = a.consistencyKing)

theorem achievementsPreserved_refl (a : Achievements) :
    achievementsPreserved a a :=
  ⟨fun _ => rfl, fun _ => rfl, fun _ => rfl, fun _ => rfl⟩

/-- `updateAchievements` never touches an already-unlocked
achievement. -/
theorem updateAchievements_preserves (a : Achievements) (now : Int)
    (c : AchievementCounters) :
    achievementsPreserved a (updateAchievements a now c) := by
  unfold updateAchievements
  by_cases h1 : a.streakWarrior.unlocked <;>
    by_cases h2 : a.mathMastery.unlocked <;>
      by_cases h3 : a.deepFocus.unlocked <;>
        by_cases h4 : a.consistencyKing.unlocked <;>
          simp [achievementsPreserved, h1, h2, h3, h4]

/-- The achievements committed by the main `set` of `_registerEntry` are
exactly an `updateAchievements` pass over the prior achievements. -/
theorem registerEntryMain_achievements (now : Int) (entry : JournalEntry)
    (s : GamificationState) :
    (registerEntryMain now entry s).achievements =
      updateAchievements s.achievements now
        { streak :=
            (calculateStreak s.lastEntryDate s.streak entry.date).newStreak
          mathTaggedEntries :=
            if (entry.tags.any fun tag => tag.toLower == "math") &&
                (calculateStreak s.lastEntryDate s.streak
                  entry.date).isNewDay then
              s.mathTaggedEntries + 1
            else s.mathTaggedEntries
          totalFocusMinutes := s.totalFocusMinutes + entry.focusMinutes.getD 0
          totalEntries :=
            if (calculateStreak s.lastEntryDate s.streak
                entry.date).isNewDay then
              s.totalEntries + 1
            else s.totalEntries } := rfl

theorem applyOp_achievements_eq (op : Op) (s : GamificationState)
    (hop : ∀ now entry, op ≠ Op.registerEntry now entry)
    (hrs : op ≠ Op.resetState) :
    (applyOp op s).achievements = s.achievements := by
  cases op with
  | addXP amount => exact addXP_achievements amount s
  | registerEntry now entry => exact absurd rfl (hop now entry)
  | updateStreakOnEntry date => rfl
  | resetStreak => rfl
  | claimQuest questId => exact claimQuest_achievements questId s
  | updateQuestsOnEntry now entry => exact updateQuests_achievements now entry s
  | resetWeeklyQuests now => exact resetWeeklyQuests_achievements now s
  | resetState => exact absurd rfl hrs

/-- A single public mutator other than `resetState` carries unlocked
achievements over untouched. -/
theorem applyOp_achievementsPreserved (op : Op)
    (s : GamificationState) (h : op ≠ Op.resetState) :
    achievementsPreserved s.achievements (applyOp op s).achievements := by
  cases op with
  | registerEntry now entry =>
    rw [applyOp, registerEntry, updateQuests_achievements,
      registerEntryMain_achievements, resetWeeklyQuests_achievements]
    exact updateAchievements_preserves _ _ _
  | resetState => exact absurd rfl h
  | addXP amount =>
    rw [applyOp_achievements_eq _ _ (by intro _ _ h; cases h) (by intro h; cases h)]
    exact achievementsPreserved_refl _
  | updateStreakOnEntry date =>
    rw [applyOp_achievements_eq _ _ (by intro _ _ h; cases h) (by intro h; cases h)]
    exact achievementsPreserved_refl _
  | resetStreak =>
    rw [applyOp_achievements_eq _ _ (by intro _ _ h; cases h) (by intro h; cases h)]
    exact achievementsPreserved_refl _
  | claimQuest questId =>
    rw [applyOp_achievements_eq _ _ (by intro _ _ h; cases h) (by intro h; cases h)]
    exact achievementsPreserved_refl _
  | updateQuestsOnEntry now entry =>
    rw [applyOp_achievements_eq _ _ (by intro _ _ h; cases h) (by intro h; cases h)]
    exact achievementsPreserved_refl _
  | resetWeeklyQuests now =>
    rw [applyOp_achievements_eq _ _ (by intro _ _ h; cases h) (by intro h; cases h)]
    exact achievementsPreserved_refl _

/-- Apply a sequence of public mutators, left to right. -/
def applyOps (ops : List Op) (s : GamificationState) : GamificationState :=
  ops.foldl (fun t op => applyOp op t) s

theorem achievementsPreserved_trans {a b c : Achievements}
    (h1 : achievementsPreserved a b) (h2 : achievementsPreserved b c) :
    achievementsPreserved a c := by
  refine ⟨?_, ?_, ?_, ?_⟩
  · intro h
    rw [h2.1 (by rw [h1.1 h]; exact h), h1.1 h]
  · intro h
    rw [h2.2.1 (by rw [h1.2.1 h]; exact h), h1.2.1 h]
  · intro h
    rw [h2.2.2.1 (by rw [h1.2.2.1 h]; exact h), h1.2.2.1 h]
  · intro h
    rw [h2.2.2.2 (by rw [h1.2.2.2 h]; exact h), h1.2.2.2 h]

/-- C6 (amended): achievement unlocking is monotonic under every
sequence of public mutators that does not contain `resetState`: whenever
an achievement has `unlocked = true`, the sequence leaves that
achievement's record — `unlocked`, `progress`, `unlockedAt` — entirely
unchanged, even if the underlying counters later decrease.
(`resetState`, which the original claim also quantified over, restores
the locked defaults; see the counterexample.) -/
theorem achievement_monotonic_except_reset (ops : List Op)
    (s : GamificationState) (h : ∀ op ∈ ops, op ≠ Op.resetState) :
    achievementsPreserved s.achievements (applyOps ops s).achievements := by
  induction ops generalizing s with
  | nil => exact achievementsPreserved_refl _
  | cons op ops ih =>
    exact achievementsPreserved_trans
      (applyOp_achievementsPreserved op s (h op (List.mem_cons_self op ops)))
      (ih (applyOp op s) fun o ho => h o (List.mem_cons_of_mem op ho))

/-- Counterexample for C6 as stated: from the initial state, one
registered entry with 240 focus minutes unlocks the `deep-focus`
achievement, and the public mutator `resetState` — included in "any
sequence of the public mutators" — re-locks it. -/
theorem achievement_monotonicity_fails_on_resetState :
    Reachable (applyOp
      (Op.registerEntry 0 { date := 0, focusMinutes := some 240 })
      INITIAL_STATE) ∧
    (applyOp (Op.registerEntry 0 { date := 0, focusMinutes := some 240 })
      INITIAL_STATE).achievements.deepFocus.unlocked = true ∧
    (applyOp Op.resetState
      (applyOp (Op.registerEntry 0 { date := 0, focusMinutes := some 240 })
        INITIAL_STATE)).achievements.deepFocus.unlocked = false :=
  ⟨Reachable.step _ Reachable.init, by decide, by decide⟩

/-- Witness for the amended C6: the sequence `resetStreak; addXP 5` on a
state with `deep-focus` unlocked preserves the unlocked achievement
record. -/
theorem achievement_monotonic_except_reset_witness :
    achievementsPreserved
      (applyOp (Op.registerEntry 0 { date := 0, focusMinutes := some 240 })
        INITIAL_STATE).achievements
      (applyOps [Op.resetStreak, Op.addXP 5]
        (applyOp (Op.registerEntry 0 { date := 0, focusMinutes := some 240 })
          INITIAL_STATE)).achievements :=
  achievement_monotonic_except_reset [Op.resetStreak, Op.addXP 5] _
    (by decide)

/-! ### C7: `longestStreak` -/

/-- C7 (amended): after every public mutation from the initial state the
invariant `streak ≤ longestStreak` holds, and `longestStreak` is
non-decreasing under every public mutator except `resetState` (which
returns it to 0; see the counterexample for the unrestricted claim). -/
theorem longestStreak_invariant_except_reset :
    (∀ s : GamificationState, Reachable s → s.streak ≤ s.longestStreak) ∧
    (∀ (op : Op) (s : GamificationState), op ≠ Op.resetState →
      s.longestStreak ≤ (applyOp op s).longestStreak) := by
  constructor
  · intro s h
    induction h with
    | init => exact Nat.le_refl 0
    | step op hs ih =>
      cases op with
      | addXP amount =>
        rw [applyOp, addXP_streak, addXP_longestStreak]
        exact ih
      | registerEntry now entry =>
        rw [applyOp, registerEntry_longest_max]
        exact le_max_right _ _
      | updateStreakOnEntry date =>
        rw [applyOp, updateStreak_longest_max]
        exact le_max_right _ _
      | resetStreak => exact Nat.zero_le _
      | claimQuest questId =>
        rw [applyOp, claimQuest_streak, claimQuest_longestStreak]
        exact ih
      | updateQuestsOnEntry now entry =>
        rw [applyOp, updateQuests_streak, updateQuests_longestStreak]
        exact ih
      | resetWeeklyQuests now =>
        rw [applyOp, resetWeeklyQuests_streak, resetWeeklyQuests_longestStreak]
        exact ih
      | resetState => exact Nat.le_refl 0
  · intro op s h
    cases op with
    | addXP amount =>
      rw [applyOp, addXP_longestStreak]
    | registerEntry now entry =>
      rw [applyOp, registerEntry_longest_max]
      exact le_max_left _ _
    | updateStreakOnEntry date =>
      rw [applyOp, updateStreak_longest_max]
      exact le_max_left _ _
    | resetStreak => exact Nat.le_refl _
    | claimQuest questId =>
      rw [applyOp, claimQuest_longestStreak]
    | updateQuestsOnEntry now entry =>
      rw [applyOp, updateQuests_longestStreak]
    | resetWeeklyQuests now =>
      rw [applyOp, resetWeeklyQuests_longestStreak]
    | resetState => exact absurd rfl h

/-- Counterexample for C7 as stated: one registered entry brings
`longestStreak` to 1; the public mutation `resetState` then drops it
back to 0, so `longestStreak` is not non-decreasing across every public
mutation. -/
theorem longestStreak_decreases_on_resetState :
    Reachable (applyOp (Op.registerEntry 0 { date := 0 }) INITIAL_STATE) ∧
    (applyOp (Op.registerEntry 0 { date := 0 })
      INITIAL_STATE).longestStreak = 1 ∧
    (applyOp Op.resetState
      (applyOp (Op.registerEntry 0 { date := 0 })
        INITIAL_STATE)).longestStreak = 0 :=
  ⟨Reachable.step _ Reachable.init, by decide, by decide⟩

/-- Witness for the amended C7: the invariant at the initial state and
the non-decrease of `longestStreak` under a concrete `resetStreak`. -/
theorem longestStreak_invariant_except_reset_witness :
    INITIAL_STATE.streak ≤ INITIAL_STATE.longestStreak ∧
    INITIAL_STATE.longestStreak ≤
      (applyOp Op.resetStreak INITIAL_STATE).longestStreak :=
  ⟨longestStreak_invariant_except_reset.1 INITIAL_STATE Reachable.init,
   longestStreak_invariant_except_reset.2 Op.resetStreak INITIAL_STATE
     (by decide)⟩

end Gamification
